import Mathlib

/-!
Shallow embedding of the Atlas Scientific I2C driver (`src/AtlasI2C.py`).

The driver is a single Python class `AtlasI2C`.  Its pure helpers
(`get_response`, `is_valid`, `handle_raspi_glitch`, `get_command_timeout`)
are translated as Lean functions on `List Nat` (byte sequences, every
element below 256) and `String`.  The stateful parts (construction,
`set_i2c_address`, `write`, `read`, `query`, `list_i2c_devices`) are
translated as explicit state passing over an `AtlasI2C` structure; the
OS-level capabilities (the two `ioctl` calls, the raw file read and write)
are passed in as outcome oracles, so that every possible transport
behaviour — success, raised `IOError`, short write, arbitrary delivered
bytes — is quantified over in the theorems.  Raised exceptions are
modelled with `Except Unit`; a Python `float` timeout is modelled as a
rational number.
-/

namespace AtlasSpec

/-- Python `str.upper` restricted to the driver's ASCII command strings:
uppercase every character. -/
def pyUpper (s : String) : String := String.mk (s.data.map Char.toUpper)

/-- Python `str.startswith(p)`: the characters of `p` are an initial
segment of the characters of `s`. -/
def pyStartsWith (s p : String) : Bool := p.data.isPrefixOf s.data

/-- Python `str.startswith(tuple)`: true when some member of the tuple is
an initial segment. -/
def pyStartsWithAny (s : String) (ps : List String) : Bool :=
  ps.any (fun p => pyStartsWith s p)

/-- Python `s.encode('latin-1')` for the driver's command strings: one byte
per character, the character's code point. -/
def encodeLatin1 (s : String) : List Nat := s.data.map Char.toNat

/-- Python `x & ~0x80` on a byte: clear bit 7 (the most significant bit of
a byte), leave every other bit. -/
def andNotMSB (x : Nat) : Nat := if x.testBit 7 then x - 128 else x

/-- `AtlasI2C.LONG_TIMEOUT = 1.5` — timeout for readings and calibrations. -/
def LONG_TIMEOUT : Rat := 3 / 2

/-- `AtlasI2C.SHORT_TIMEOUT = .3` — timeout for regular commands. -/
def SHORT_TIMEOUT : Rat := 3 / 10

/-- `AtlasI2C.DEFAULT_BUS = 1`. -/
def DEFAULT_BUS : Nat := 1

/-- `AtlasI2C.DEFAULT_ADDRESS = 98`. -/
def DEFAULT_ADDRESS : Nat := 98

/-- `AtlasI2C.LONG_TIMEOUT_COMMANDS = ("R", "CAL")`. -/
def LONG_TIMEOUT_COMMANDS : List String := ["R", "CAL"]

/-- `AtlasI2C.SLEEP_COMMANDS = ("SLEEP",)`. -/
def SLEEP_COMMANDS : List String := ["SLEEP"]

/-- The Python format string used at construction:
`"/dev/i2c-" + str(bus)` — the device file both endpoints are opened on. -/
def i2cDevicePath (bus : Nat) : String := "/dev/i2c-" ++ toString bus

/-- The driver's state: the recorded current address `_address`, the bus
number, the two timeout fields, the address each of the two OS endpoints
(`file_read`, `file_write`) is currently bound to by `ioctl`, and the two
free-text labels. -/
structure AtlasI2C where
  addressField : Nat
  bus : Nat
  longTimeoutField : Rat
  shortTimeoutField : Rat
  readEndpointAddr : Nat
  writeEndpointAddr : Nat
  nameField : String
  moduleField : String
deriving Repr, DecidableEq

/-- `AtlasI2C.get_response(raw_data)`:
`bytes([i for i in raw_data if i != 0])` — drop every zero byte. -/
def get_response (raw_data : List Nat) : List Nat :=
  raw_data.filter (fun i => i != 0)

/-- `AtlasI2C.is_valid(response)`: `error_code = None`; when the response is
non-empty, `error_code = int(response[0])` and the response is valid exactly
when that code is 1.  Returns the pair (valid, code). -/
def is_valid (response : List Nat) : Bool × Option Nat :=
  match response with
  | [] => (false, none)
  | b :: _ => if b = 1 then (true, some b) else (false, some b)

/-- `AtlasI2C.handle_raspi_glitch(response)`:
`list(map(lambda x: chr(x & ~0x80), list(response)))` — one character per
byte, the byte with its MSB cleared. -/
def handle_raspi_glitch (response : List Nat) : List Char :=
  response.map (fun x => Char.ofNat (andNotMSB x))

/-- `AtlasI2C.set_i2c_address(addr)`: `ioctl(file_read, I2C_SLAVE, addr)`,
then `ioctl(file_write, I2C_SLAVE, addr)`, then `self._address = addr`.
Each `ioctl` may raise; `okRead` and `okWrite` are the outcomes of the two
calls in order.  Returns the post state and whether the method returned
normally (no exception).  A raised first `ioctl` leaves everything
unchanged; a raised second `ioctl` leaves the read endpoint rebound but the
write endpoint and the recorded address unchanged, exactly as in the
source, where the exception aborts the method between the statements. -/
def set_i2c_address (dev : AtlasI2C) (addr : Nat) (okRead okWrite : Bool) :
    AtlasI2C × Bool :=
  if okRead then
    let dev1 := { dev with readEndpointAddr := addr }
    if okWrite then
      ({ dev1 with writeEndpointAddr := addr, addressField := addr }, true)
    else (dev1, false)
  else (dev, false)

/-- `AtlasI2C.__init__(address=None, moduletype='', name='', bus=None)`:
`self._address = address or DEFAULT_ADDRESS`, `self.bus = bus or DEFAULT_BUS`
(Python `or` takes the default when the argument is `None` or `0`), the two
timeout fields are set from the class constants, the two endpoints are
opened on `/dev/i2c-<bus>` (their fresh, not yet bound, addresses are the
oracle arguments `readAddr0`, `writeAddr0`), then `set_i2c_address(_address)`
with `ioctl` outcomes `okRead`, `okWrite`, then the two labels are stored.
Returns the state and whether construction raised no exception. -/
def init (address : Option Nat) (moduletype : String) (name : String)
    (bus : Option Nat) (readAddr0 writeAddr0 : Nat) (okRead okWrite : Bool) :
    AtlasI2C × Bool :=
  let a := match address with
    | none => DEFAULT_ADDRESS
    | some v => if v = 0 then DEFAULT_ADDRESS else v
  let b := match bus with
    | none => DEFAULT_BUS
    | some v => if v = 0 then DEFAULT_BUS else v
  let dev0 : AtlasI2C := {
    addressField := a
    bus := b
    longTimeoutField := LONG_TIMEOUT
    shortTimeoutField := SHORT_TIMEOUT
    readEndpointAddr := readAddr0
    writeEndpointAddr := writeAddr0
    nameField := name
    moduleField := moduletype }
  let r := set_i2c_address dev0 a okRead okWrite
  ({ r.1 with nameField := name, moduleField := moduletype }, r.2)

/-- `AtlasI2C.write(cmd)`: `cmd += "\x00"; return file_write.write(cmd.encode)`.
The OS write capability `transmit` either raises (`Except.error`) or
returns the number of bytes it actually wrote; the method returns that
count unchecked. -/
def write (cmd : String) (transmit : List Nat → Except Unit Nat) :
    Except Unit Nat :=
  transmit (encodeLatin1 (cmd ++ "\x00"))

/-- The pure tail of `AtlasI2C.read`: sanitize the delivered bytes, test
validity, and either glitch-correct the bytes after the status byte and
join them into a string (success, code 0), or return the reported code
(possibly `None`) with no text. -/
def read_parse (raw_data : List Nat) : Option Nat × Option String :=
  let response := get_response raw_data
  match is_valid response with
  | (true, _) => (some 0, some (String.mk (handle_raspi_glitch response.tail)))
  | (false, code) => (code, none)

/-- `AtlasI2C.read(num_of_bytes=31)`: `raw_data = file_read.read(num_of_bytes)`
— the OS read capability `receive` either raises or delivers bytes — then
the pure parsing of `read_parse`. -/
def read (receive : Nat → Except Unit (List Nat)) (num_of_bytes : Nat) :
    Except Unit (Option Nat × Option String) :=
  match receive num_of_bytes with
  | Except.error e => Except.error e
  | Except.ok raw_data => Except.ok (read_parse raw_data)

/-- `AtlasI2C.get_command_timeout(command)`: long timeout when the
uppercased command starts with a member of `LONG_TIMEOUT_COMMANDS`, else
the short timeout when it does not start with a member of
`SLEEP_COMMANDS`, else `None`. -/
def get_command_timeout (dev : AtlasI2C) (command : String) : Option Rat :=
  if pyStartsWithAny (pyUpper command) LONG_TIMEOUT_COMMANDS then
    some dev.longTimeoutField
  else if !(pyStartsWithAny (pyUpper command) SLEEP_COMMANDS) then
    some dev.shortTimeoutField
  else none

/-- Observable side effects of one `query` call: the transmitted payload,
a `time.sleep` of a duration, and a read of up to a byte count. -/
inductive Event where
  | wrote (payload : List Nat)
  | slept (duration : Rat)
  | readUpTo (maxBytes : Nat)
deriving Repr, DecidableEq

/-- `AtlasI2C.query(command)`: `self.write(command)` (a raised write
propagates), then `current_timeout = get_command_timeout(command)`; if that
is falsy (`None` or zero) return `None` with no sleep and no read, else
`time.sleep(current_timeout)` then `return self.read()` with the default 31
bytes (a raised read propagates).  Paired with the list of observable
effects the call performed. -/
def query (dev : AtlasI2C) (command : String)
    (transmit : List Nat → Except Unit Nat)
    (receive : Nat → Except Unit (List Nat)) :
    Except Unit (Option (Option Nat × Option String)) × List Event :=
  match write command transmit with
  | Except.error e => (Except.error e, [])
  | Except.ok _ =>
    let sent : List Event := [Event.wrote (encodeLatin1 (command ++ "\x00"))]
    match get_command_timeout dev command with
    | none => (Except.ok none, sent)
    | some t =>
      if t = 0 then (Except.ok none, sent)
      else
        match read receive 31 with
        | Except.error e => (Except.error e, sent ++ [Event.slept t])
        | Except.ok r =>
          (Except.ok (some r), sent ++ [Event.slept t, Event.readUpTo 31])

/-- Transport outcomes for the probe of one candidate address during the
bus scan: the two `ioctl` outcomes of `set_i2c_address(i)` and the outcome
of the raw 1-byte file read inside `read(1)`. -/
structure ProbeOutcome where
  okRead : Bool
  okWrite : Bool
  recv : Except Unit (List Nat)
deriving Repr

/-- One iteration of the scan loop body: `set_i2c_address(i)` then
`read(1)`; the iteration succeeds (and the address is recorded) exactly
when neither raised. -/
def probe (dev : AtlasI2C) (i : Nat) (o : ProbeOutcome) : AtlasI2C × Bool :=
  match set_i2c_address dev i o.okRead o.okWrite with
  | (dev1, true) =>
    match read (fun _ => o.recv) 1 with
    | Except.error _ => (dev1, false)
    | Except.ok _ => (dev1, true)
  | (dev1, false) => (dev1, false)

/-- The scan loop of `list_i2c_devices`: fold the probe over the candidate
addresses, appending each address whose probe raised no `IOError`. -/
def scanFold (outcomes : Nat → ProbeOutcome) (addrs : List Nat)
    (acc : List Nat × AtlasI2C) : List Nat × AtlasI2C :=
  addrs.foldl
    (fun acc i =>
      let r := probe acc.2 i (outcomes i)
      (if r.2 then acc.1 ++ [i] else acc.1, r.1))
    acc

/-- `AtlasI2C.list_i2c_devices()`: save `prev_addr = self._address`, probe
addresses 0..127 in order collecting those whose probe raised nothing, then
`set_i2c_address(prev_addr)` (outcomes `okRestoreRead`, `okRestoreWrite`),
then return the collected list.  The result pairs (collected list, post
state) with whether the method returned normally — the final restoring
`set_i2c_address` is outside any try block, so its exception propagates. -/
def list_i2c_devices (dev : AtlasI2C) (outcomes : Nat → ProbeOutcome)
    (okRestoreRead okRestoreWrite : Bool) : (List Nat × AtlasI2C) × Bool :=
  let prev_addr := dev.addressField
  let r := scanFold outcomes (List.range 128) ([], dev)
  let r2 := set_i2c_address r.2 prev_addr okRestoreRead okRestoreWrite
  ((r.1, r2.1), r2.2)

/-- A probe raises no transport error exactly when both `ioctl` calls of
`set_i2c_address` and the raw byte read of `read(1)` succeed. -/
def probeOk (o : ProbeOutcome) : Bool := o.okRead && o.okWrite && o.recv.isOk

/-- A handle as built by the constructor with every transport operation
succeeding: bound to the default address 98 on the default bus 1. -/
def defaultDev : AtlasI2C := (init none "" "" none 0 0 true true).1

/-- A transmit capability that reports every byte written. -/
def fullTransmit : List Nat → Except Unit Nat := fun payload => Except.ok payload.length

/-- A transmit capability that reports zero bytes written without raising:
a silent short write. -/
def shortTransmit : List Nat → Except Unit Nat := fun _ => Except.ok 0

/-- A receive capability that delivers a successful two-byte response. -/
def okReceive : Nat → Except Unit (List Nat) := fun _ => Except.ok [1, 65]

end AtlasSpec

namespace AtlasSpec

set_option maxRecDepth 4096 in
theorem andNotMSB_eq_land : ∀ x : Nat, x < 256 → andNotMSB x = x &&& 127 := by decide

theorem encodeLatin1_append_nul (s : String) :
    encodeLatin1 (s ++ "\x00") = encodeLatin1 s ++ [0] := by
  simp [encodeLatin1, String.data_append]

theorem isPrefixOf_head_eq {a b : Char} {as bs l : List Char}
    (h1 : (a :: as).isPrefixOf l = true) (h2 : (b :: bs).isPrefixOf l = true) :
    a = b := by
  cases l with
  | nil => simp [List.isPrefixOf] at h1
  | cons c cs =>
    simp [List.isPrefixOf] at h1 h2
    exact h1.1.trans h2.1.symm

theorem sleep_not_long (s : String)
    (h : pyStartsWithAny s SLEEP_COMMANDS = true) :
    pyStartsWithAny s LONG_TIMEOUT_COMMANDS = false := by
  simp [pyStartsWithAny, pyStartsWith, SLEEP_COMMANDS, LONG_TIMEOUT_COMMANDS] at h ⊢
  obtain ⟨t, ht⟩ := h
  rw [← ht]
  constructor <;> rfl

theorem init_addressField (a : Option Nat) (mt nm : String) (b : Option Nat)
    (r0 w0 : Nat) (okR okW : Bool) :
    ((init a mt nm b r0 w0 okR okW).1).addressField =
      (match a with
        | none => DEFAULT_ADDRESS
        | some v => if v = 0 then DEFAULT_ADDRESS else v) := by
  rcases okR <;> rcases okW <;> simp [init, set_i2c_address]

theorem init_bus (a : Option Nat) (mt nm : String) (b : Option Nat)
    (r0 w0 : Nat) (okR okW : Bool) :
    ((init a mt nm b r0 w0 okR okW).1).bus =
      (match b with
        | none => DEFAULT_BUS
        | some v => if v = 0 then DEFAULT_BUS else v) := by
  rcases okR <;> rcases okW <;> simp [init, set_i2c_address]

theorem probe_result (dev : AtlasI2C) (i : Nat) (o : ProbeOutcome) :
    (probe dev i o).2 = probeOk o := by
  rcases o with ⟨okR, okW, recv⟩
  rcases okR <;> rcases okW <;> rcases recv <;>
    simp [probe, probeOk, set_i2c_address, read, Except.isOk, Except.toBool]

theorem scanFold_devices (outcomes : Nat → ProbeOutcome) (l : List Nat)
    (acc : List Nat) (dev : AtlasI2C) :
    (scanFold outcomes l (acc, dev)).1 =
      acc ++ l.filter (fun i => probeOk (outcomes i)) := by
  induction l generalizing acc dev with
  | nil => simp [scanFold]
  | cons i t ih =>
    rw [show scanFold outcomes (i :: t) (acc, dev) =
        scanFold outcomes t
          (if (probe dev i (outcomes i)).2 then acc ++ [i] else acc,
            (probe dev i (outcomes i)).1) from rfl]
    rw [probe_result]
    cases h : probeOk (outcomes i) with
    | false => simp [h, ih, List.filter_cons]
    | true => simp [h, ih, List.filter_cons]

/-- C1 counterexample: the address 0 lies in the legal range 0..127, yet
the handle constructed with address 0 is bound to the default address 98,
not to 0. -/
theorem c1_zero_address_ignored :
    (0 : Nat) ≤ 127
  ∧ ((init (some 0) "" "" none 0 0 true true).1).addressField = 98
  ∧ ((init (some 0) "" "" none 0 0 true true).1).readEndpointAddr = 98
  ∧ 98 ≠ 0 :=
  ⟨by decide, rfl, rfl, by decide⟩

/-- C1 amended: for every nonzero address in the legal range 1..127
supplied to the constructor, the constructed handle is bound to that
supplied address; the default address is used when no address is given and
also when the address 0 is given. -/
theorem c1_constructor_binds_given_address (a : Nat) (h1 : 1 ≤ a) (h2 : a ≤ 127)
    (moduletype name : String) (bus : Option Nat) (r0 w0 : Nat) :
    ((init (some a) moduletype name bus r0 w0 true true).1).addressField = a
  ∧ ((init (some a) moduletype name bus r0 w0 true true).1).readEndpointAddr = a
  ∧ ((init (some a) moduletype name bus r0 w0 true true).1).writeEndpointAddr = a
  ∧ ((init none moduletype name bus r0 w0 true true).1).addressField =
      DEFAULT_ADDRESS := by
  have ha : a ≠ 0 := by omega
  refine ⟨?_, ?_, ?_, ?_⟩ <;> simp [init, set_i2c_address, ha]

theorem c1_constructor_binds_given_address_witness :
    ((init (some 99) "mod" "nm" none 0 0 true true).1).addressField = 99
  ∧ ((init (some 99) "mod" "nm" none 0 0 true true).1).readEndpointAddr = 99
  ∧ ((init (some 99) "mod" "nm" none 0 0 true true).1).writeEndpointAddr = 99
  ∧ ((init none "mod" "nm" none 0 0 true true).1).addressField =
      DEFAULT_ADDRESS :=
  c1_constructor_binds_given_address 99 (by decide) (by decide) "mod" "nm" none 0 0

/-- C2 counterexample: a transmit capability that silently writes 0 of the
2 requested bytes of the command R makes write return the count 0 without
raising any error, so a short write does not fail. -/
theorem c2_short_write_unreported :
    write "R" shortTransmit = Except.ok 0
  ∧ (encodeLatin1 ("R" ++ "\x00")).length = 2
  ∧ 0 < 2 := by
  refine ⟨rfl, ?_, by decide⟩
  rw [encodeLatin1_append_nul]
  rfl

/-- C2 amended: the transmit step appends a single trailing NUL to the
ASCII bytes of the command and fails exactly when the underlying write
capability fails; a capability that reports fewer bytes written than
requested is not detected — the short count is returned without error. -/
theorem c2_write_error_iff (cmd : String)
    (transmit : List Nat → Except Unit Nat) :
    (write cmd transmit = transmit (encodeLatin1 cmd ++ [0]))
  ∧ (∀ e, write cmd transmit = Except.error e ↔
      transmit (encodeLatin1 cmd ++ [0]) = Except.error e)
  ∧ (∀ n, transmit (encodeLatin1 cmd ++ [0]) = Except.ok n →
      write cmd transmit = Except.ok n) := by
  have h : write cmd transmit = transmit (encodeLatin1 cmd ++ [0]) := by
    unfold write
    rw [encodeLatin1_append_nul]
  exact ⟨h, fun e => by rw [h], fun n hn => by rw [h]; exact hn⟩

/-- C3: on any delivered byte sequence, read returns status 0 with the
glitch-corrected text of the sanitized tail exactly when the first
sanitized byte is 1; on any other sanitized head it returns that head (or
none when the sanitized response is empty) with no text; a status of 0 is
only returned on success, and the sanitized head is never the byte 0. -/
theorem c3_read_status (raw : List Nat) :
    (read (fun _ => Except.ok raw) 31 =
        Except.ok (some 0,
          some (String.mk (handle_raspi_glitch (get_response raw).tail)))
      ↔ (get_response raw).head? = some 1)
  ∧ ((get_response raw).head? ≠ some 1 →
      read (fun _ => Except.ok raw) 31 =
        Except.ok ((get_response raw).head?, none))
  ∧ (∀ p, read (fun _ => Except.ok raw) 31 = Except.ok (some 0, p) →
      (get_response raw).head? = some 1)
  ∧ (get_response raw).head? ≠ some 0 := by
  have hz : (get_response raw).head? ≠ some 0 := by
    cases hh : get_response raw with
    | nil => simp
    | cons b t =>
      have hmem : b ∈ get_response raw := by
        rw [hh]; exact List.mem_cons_self b t
      have hb0 : b ≠ 0 := by
        unfold get_response at hmem
        simp [List.mem_filter] at hmem
        exact hmem.2
      simp [hb0]
  refine ⟨?_, ?_, ?_, hz⟩ <;>
  · cases hh : get_response raw with
    | nil => simp [read, read_parse, is_valid, hh]
    | cons b t =>
      have hmem : b ∈ get_response raw := by
        rw [hh]; exact List.mem_cons_self b t
      have hb0 : b ≠ 0 := by
        unfold get_response at hmem
        simp [List.mem_filter] at hmem
        exact hmem.2
      by_cases hb : b = 1 <;> simp [read, read_parse, is_valid, hh, hb, hb0]

/-- C4: for every handle and all probe outcomes at the 128 scanned
addresses, the scan rebinds the saved address at the end: when the final
restoring rebind raises nothing the scan returns normally and the recorded
address (and both endpoint bindings) equal the address recorded before the
scan, whatever happened at the probed addresses; and whenever the scan
returns normally the recorded address is restored. -/
theorem c4_scan_restores_address (dev : AtlasI2C)
    (outcomes : Nat → ProbeOutcome) :
    ((list_i2c_devices dev outcomes true true).1.2).addressField =
      dev.addressField
  ∧ ((list_i2c_devices dev outcomes true true).1.2).readEndpointAddr =
      dev.addressField
  ∧ ((list_i2c_devices dev outcomes true true).1.2).writeEndpointAddr =
      dev.addressField
  ∧ (list_i2c_devices dev outcomes true true).2 = true
  ∧ (∀ okR okW, (list_i2c_devices dev outcomes okR okW).2 = true →
      ((list_i2c_devices dev outcomes okR okW).1.2).addressField =
        dev.addressField) := by
  refine ⟨?_, ?_, ?_, ?_, ?_⟩
  · simp [list_i2c_devices, set_i2c_address]
  · simp [list_i2c_devices, set_i2c_address]
  · simp [list_i2c_devices, set_i2c_address]
  · simp [list_i2c_devices, set_i2c_address]
  · intro okR okW h
    rcases okR <;> rcases okW <;>
      simp [list_i2c_devices, set_i2c_address] at h ⊢

/-- C5: the scan probes the addresses 0..127 in order; an address is
returned exactly when its own probe (the two ioctl calls of the rebind and
the 1-byte read) raised no transport error, independently of every other
address's outcome, and the returned list is strictly ascending. -/
theorem c5_scan_error_isolation (dev : AtlasI2C)
    (outcomes : Nat → ProbeOutcome) (okR okW : Bool) :
    (list_i2c_devices dev outcomes okR okW).1.1 =
      (List.range 128).filter (fun i => probeOk (outcomes i))
  ∧ (∀ i, i ∈ (list_i2c_devices dev outcomes okR okW).1.1 ↔
      (i < 128 ∧ probeOk (outcomes i) = true))
  ∧ (list_i2c_devices dev outcomes okR okW).1.1.Pairwise (· < ·) := by
  have hd : (list_i2c_devices dev outcomes okR okW).1.1 =
      (List.range 128).filter (fun i => probeOk (outcomes i)) := by
    have h0 : (list_i2c_devices dev outcomes okR okW).1.1 =
        (scanFold outcomes (List.range 128) ([], dev)).1 := by
      rcases okR <;> rcases okW <;> simp [list_i2c_devices, set_i2c_address]
    rw [h0, scanFold_devices]
    simp
  refine ⟨hd, ?_, ?_⟩
  · intro i
    rw [hd]
    simp [List.mem_filter, List.mem_range]
  · rw [hd]
    exact (List.pairwise_lt_range 128).sublist (List.filter_sublist _)

/-- C6: a sleep-classified command (case-insensitive prefix SLEEP) makes
query transmit the NUL-terminated command and return None at once, with no
sleep and no read among its effects; every other command makes query sleep
the classified nonzero duration and then return what read returns (a
raised read propagates); and query returns None only for sleep-classified
commands. -/
theorem c6_query_sleep (dev : AtlasI2C) (command : String)
    (transmit : List Nat → Except Unit Nat)
    (receive : Nat → Except Unit (List Nat))
    (hLong : dev.longTimeoutField = LONG_TIMEOUT)
    (hShort : dev.shortTimeoutField = SHORT_TIMEOUT) :
    (pyStartsWithAny (pyUpper command) SLEEP_COMMANDS = true →
      ∀ n, transmit (encodeLatin1 (command ++ "\x00")) = Except.ok n →
        query dev command transmit receive =
          (Except.ok none, [Event.wrote (encodeLatin1 (command ++ "\x00"))]))
  ∧ (pyStartsWithAny (pyUpper command) SLEEP_COMMANDS = false →
      ∀ n, transmit (encodeLatin1 (command ++ "\x00")) = Except.ok n →
      ∃ t, get_command_timeout dev command = some t ∧ t ≠ 0 ∧
        query dev command transmit receive =
          (match read receive 31 with
            | Except.error e =>
                (Except.error e,
                  [Event.wrote (encodeLatin1 (command ++ "\x00")),
                    Event.slept t])
            | Except.ok r =>
                (Except.ok (some r),
                  [Event.wrote (encodeLatin1 (command ++ "\x00")),
                    Event.slept t, Event.readUpTo 31])))
  ∧ ((query dev command transmit receive).1 = Except.ok none →
      pyStartsWithAny (pyUpper command) SLEEP_COMMANDS = true) := by
  have hL0 : LONG_TIMEOUT ≠ 0 := by norm_num [LONG_TIMEOUT]
  have hS0 : SHORT_TIMEOUT ≠ 0 := by norm_num [SHORT_TIMEOUT]
  refine ⟨fun h n hn => ?_, fun h n hn => ?_, fun hq => ?_⟩
  · have hl := sleep_not_long _ h
    simp [query, write, hn, get_command_timeout, hl, h]
  · cases hlong : pyStartsWithAny (pyUpper command) LONG_TIMEOUT_COMMANDS with
    | true =>
      refine ⟨dev.longTimeoutField, by simp [get_command_timeout, hlong], ?_, ?_⟩
      · rw [hLong]; exact hL0
      · simp [query, write, hn, get_command_timeout, hlong, hLong, hL0]
    | false =>
      refine ⟨dev.shortTimeoutField,
        by simp [get_command_timeout, hlong, h], ?_, ?_⟩
      · rw [hShort]; exact hS0
      · simp [query, write, hn, get_command_timeout, hlong, h, hShort, hS0]
  · cases htr : transmit (encodeLatin1 (command ++ "\x00")) with
    | error e => simp [query, write, htr] at hq
    | ok n =>
      cases hsleep : pyStartsWithAny (pyUpper command) SLEEP_COMMANDS with
      | true => rfl
      | false =>
        exfalso
        cases hlong : pyStartsWithAny (pyUpper command) LONG_TIMEOUT_COMMANDS with
        | true =>
          simp [query, write, htr, get_command_timeout, hlong, hLong, hL0] at hq
          cases hr : read receive 31 <;> simp [hr] at hq
        | false =>
          simp [query, write, htr, get_command_timeout, hlong, hsleep,
            hShort, hS0] at hq
          cases hr : read receive 31 <;> simp [hr] at hq

theorem c6_query_sleep_witness :
    query defaultDev "Sleep" fullTransmit okReceive =
      (Except.ok none, [Event.wrote (encodeLatin1 ("Sleep" ++ "\x00"))]) :=
  (c6_query_sleep defaultDev "Sleep" fullTransmit okReceive rfl rfl).1 rfl 6 rfl

/-- C7: get_command_timeout classifies every command by case-insensitive
prefix match: long timeout (the 1.5 constant carried by the handle, as the
constructor sets it) when the uppercased command starts with R or CAL,
none when it starts with SLEEP, and the short timeout (the 0.3 constant)
otherwise; the three categories are disjoint. -/
theorem c7_timeout_classification :
    (LONG_TIMEOUT = 3 / 2 ∧ SHORT_TIMEOUT = 3 / 10)
  ∧ (∀ a mt nm b r0 w0 okR okW,
      ((init a mt nm b r0 w0 okR okW).1).longTimeoutField = LONG_TIMEOUT
    ∧ ((init a mt nm b r0 w0 okR okW).1).shortTimeoutField = SHORT_TIMEOUT)
  ∧ (∀ (dev : AtlasI2C) (command : String),
      (pyStartsWithAny (pyUpper command) LONG_TIMEOUT_COMMANDS = true →
        get_command_timeout dev command = some dev.longTimeoutField)
    ∧ (pyStartsWithAny (pyUpper command) SLEEP_COMMANDS = true →
        get_command_timeout dev command = none)
    ∧ (pyStartsWithAny (pyUpper command) LONG_TIMEOUT_COMMANDS = false →
       pyStartsWithAny (pyUpper command) SLEEP_COMMANDS = false →
        get_command_timeout dev command = some dev.shortTimeoutField)
    ∧ ¬(pyStartsWithAny (pyUpper command) LONG_TIMEOUT_COMMANDS = true
        ∧ pyStartsWithAny (pyUpper command) SLEEP_COMMANDS = true)) := by
  refine ⟨⟨rfl, rfl⟩, ?_, ?_⟩
  · intro a mt nm b r0 w0 okR okW
    rcases okR <;> rcases okW <;> simp [init, set_i2c_address]
  · intro dev command
    refine ⟨fun h => ?_, fun h => ?_, fun h1 h2 => ?_, fun hc => ?_⟩
    · simp [get_command_timeout, h]
    · have hl := sleep_not_long _ h
      simp [get_command_timeout, hl, h]
    · simp [get_command_timeout, h1, h2]
    · have := sleep_not_long _ hc.2
      rw [this] at hc
      exact Bool.false_ne_true hc.1

/-- C8 counterexample: starting from the default handle with both
endpoints bound to 98, a set_i2c_address to 5 whose first ioctl succeeds
and whose second ioctl raises leaves the read endpoint bound to 5 and the
write endpoint bound to 98 — the two endpoints of one handle bound to
different addresses. -/
theorem c8_diverging_endpoints :
    ((set_i2c_address defaultDev 5 true false).1).readEndpointAddr = 5
  ∧ ((set_i2c_address defaultDev 5 true false).1).writeEndpointAddr = 98
  ∧ ((set_i2c_address defaultDev 5 true false).1).readEndpointAddr ≠
      ((set_i2c_address defaultDev 5 true false).1).writeEndpointAddr :=
  ⟨rfl, rfl, by decide⟩

/-- C8 amended: whenever both underlying ioctl calls succeed, construction
and set_i2c_address bind the read endpoint, the write endpoint and the
recorded address to the one given address, and a rebind whose first ioctl
fails changes nothing, so every fully successful rebind preserves the
equal-binding invariant; but when only the second ioctl fails, the read
endpoint is rebound while the write endpoint and the recorded address are
not, so the two endpoints are not bound to the same address at every point
of the handle's life. -/
theorem c8_endpoints_bound_together :
    (∀ dev addr,
      ((set_i2c_address dev addr true true).1).readEndpointAddr = addr
    ∧ ((set_i2c_address dev addr true true).1).writeEndpointAddr = addr
    ∧ ((set_i2c_address dev addr true true).1).addressField = addr
    ∧ (set_i2c_address dev addr true true).2 = true)
  ∧ (∀ dev addr okW, (set_i2c_address dev addr false okW).1 = dev)
  ∧ (∀ a mt nm b r0 w0,
      ((init a mt nm b r0 w0 true true).1).readEndpointAddr =
        ((init a mt nm b r0 w0 true true).1).writeEndpointAddr
    ∧ ((init a mt nm b r0 w0 true true).1).readEndpointAddr =
        ((init a mt nm b r0 w0 true true).1).addressField)
  ∧ (∀ dev addr,
      ((set_i2c_address dev addr true false).1).readEndpointAddr = addr
    ∧ ((set_i2c_address dev addr true false).1).writeEndpointAddr =
        dev.writeEndpointAddr
    ∧ ((set_i2c_address dev addr true false).1).addressField =
        dev.addressField) := by
  refine ⟨?_, ?_, ?_, ?_⟩
  · intro dev addr; simp [set_i2c_address]
  · intro dev addr okW; simp [set_i2c_address]
  · intro a mt nm b r0 w0; simp [init, set_i2c_address]
  · intro dev addr; simp [set_i2c_address]

/-- C9: the glitch corrector maps every byte of its input — not just the
first — to the character whose code is the byte with the most significant
bit cleared, one character per byte with no failure mode, and in
particular sends the bytes 0xC1, 0x41 to the characters A, A. -/
theorem c9_glitch_maps_every_byte (response : List Nat) :
    ((∀ x ∈ response, x < 256) →
      handle_raspi_glitch response =
        response.map (fun x => Char.ofNat (x &&& 127)))
  ∧ (handle_raspi_glitch response).length = response.length
  ∧ handle_raspi_glitch [193, 65] = ['A', 'A'] := by
  refine ⟨fun h => ?_, by simp [handle_raspi_glitch], by decide⟩
  unfold handle_raspi_glitch
  apply List.map_congr_left
  intro a ha
  rw [andNotMSB_eq_land a (h a ha)]

/-- C10: omitting the address, or supplying None or 0, binds the handle to
the default address 98; omitting the bus, or supplying None or 0, selects
the device file of the default bus 1; consequently address 0 and bus 0 can
never be selected at construction. -/
theorem c10_falsy_defaults :
    (∀ mt nm bus r0 w0 okR okW,
      ((init none mt nm bus r0 w0 okR okW).1).addressField = 98)
  ∧ (∀ mt nm bus r0 w0 okR okW,
      ((init (some 0) mt nm bus r0 w0 okR okW).1).addressField = 98)
  ∧ (∀ a mt nm r0 w0 okR okW,
      ((init a mt nm none r0 w0 okR okW).1).bus = 1)
  ∧ (∀ a mt nm r0 w0 okR okW,
      ((init a mt nm (some 0) r0 w0 okR okW).1).bus = 1)
  ∧ (∀ a mt nm b r0 w0 okR okW,
      ((init a mt nm b r0 w0 okR okW).1).addressField ≠ 0
    ∧ ((init a mt nm b r0 w0 okR okW).1).bus ≠ 0)
  ∧ i2cDevicePath DEFAULT_BUS = "/dev/i2c-1" := by
  refine ⟨?_, ?_, ?_, ?_, ?_, by decide⟩
  · intro mt nm bus r0 w0 okR okW
    rw [init_addressField]
    rfl
  · intro mt nm bus r0 w0 okR okW
    rw [init_addressField]
    rfl
  · intro a mt nm r0 w0 okR okW
    rw [init_bus]
    rfl
  · intro a mt nm r0 w0 okR okW
    rw [init_bus]
    rfl
  · intro a mt nm b r0 w0 okR okW
    constructor
    · rw [init_addressField]
      rcases a with _ | av
      · simp [DEFAULT_ADDRESS]
      · by_cases hv : av = 0 <;> simp [hv, DEFAULT_ADDRESS]
    · rw [init_bus]
      rcases b with _ | bv
      · simp [DEFAULT_BUS]
      · by_cases hv : bv = 0 <;> simp [hv, DEFAULT_BUS]

end AtlasSpec
